import Mathlib

/-!
Verification development for the Town_Runner repository: a shallow embedding
of the actor/component/scene glue code (TestScene, Actor, RigidbodyComponent,
CollisionComponent, Light) with the scalar `float` fields modelled exactly by
rationals.  Definitions are translated from the C++ sources; the few classes
whose sources are absent (Actor.h, Light.h constants, ReactPhysic) are
modelled from the specification and marked as such.
-/

namespace TownRunner

/-- Diligent `float3`, the 3-component vector used for actor positions and
light locations; `float` scalars are modelled exactly by rationals. -/
structure Float3 where
  x : ℚ
  y : ℚ
  z : ℚ
  deriving DecidableEq

/-- reactphysics3d `Vector3` (position of a rigid-body transform). -/
structure ReactVector3 where
  x : ℚ
  y : ℚ
  z : ℚ
  deriving DecidableEq

/-- reactphysics3d `Quaternion` (orientation of a rigid-body transform). -/
structure ReactQuaternion where
  x : ℚ
  y : ℚ
  z : ℚ
  w : ℚ
  deriving DecidableEq

/-- reactphysics3d `Transform`: a position together with an orientation. -/
structure RPTransform where
  position : ReactVector3
  orientation : ReactQuaternion
  deriving DecidableEq

/-- reactphysics3d `RigidBody`, reduced to the transform that the repository
code reads (`getTransform`) and writes (`setTransform`). -/
structure RigidBody where
  transform : RPTransform
  deriving DecidableEq

/-- `Actor::ActorState` from Actor.h: an actor is either Active or Dead. -/
inductive ActorState where
  | Active : ActorState
  | Dead : ActorState
  deriving DecidableEq

/-- The Actor fields the embedded code touches: a position
(`getPosition` / `setPosition`) and a state (`getState` / `setState`).
Actor.h itself is not among the provided sources; the fields follow the
specification's data model (position, state Active/Dead). -/
structure Actor where
  position : Float3
  state : ActorState
  deriving DecidableEq

/-- Modelled from the spec: `ReactPhysic` is a thin adapter around an external
physics world exposing `Update()` and rigid-body creation
(`createRigidBody`).  We keep the world abstract as a step counter, and
creation returns a rigid body carrying exactly the requested transform. -/
structure PhysicsWorld where
  steps : Nat
  deriving DecidableEq

/-- Rigid-body creation of the external physics world: the returned body is a
valid (non-null) body at the requested transform. -/
def PhysicsWorld.createRigidBody (_w : PhysicsWorld) (t : RPTransform) : RigidBody :=
  ⟨t⟩

/-- `RigidbodyComponent` data (RigidbodyComponent.hpp): the base `Component`
update order plus the `_rigidBody` handle, which is a nullable pointer and is
therefore modelled as an `Option`. -/
structure RigidbodyComponent where
  updateOrder : Int
  rigidBody : Option RigidBody
  deriving DecidableEq

/-- `RigidbodyComponent::RigidbodyComponent(Actor*)`
(src/Projects/TownRunner/src/RigidbodyComponent.cpp lines 8-12):
sets `_rigidBody = nullptr`; the base `Component(ownerP)` constructor uses the
default update order, kept abstract here as `defOrder`. -/
def RigidbodyComponent.mkOwner (defOrder : Int) : RigidbodyComponent :=
  { updateOrder := defOrder, rigidBody := none }

/-- `RigidbodyComponent::RigidbodyComponent(Actor*, int)`
(RigidbodyComponent.cpp lines 14-18): sets `_rigidBody = nullptr`. -/
def RigidbodyComponent.mkOwnerOrder (updateOrder : Int) : RigidbodyComponent :=
  { updateOrder := updateOrder, rigidBody := none }

/-- `RigidbodyComponent::RigidbodyComponent(Actor*, Transform, PhysicsWorld*)`
(RigidbodyComponent.cpp lines 20-24): `_rigidBody = _world->createRigidBody(transform)`. -/
def RigidbodyComponent.mkWorld (defOrder : Int) (transform : RPTransform)
    (world : PhysicsWorld) : RigidbodyComponent :=
  { updateOrder := defOrder, rigidBody := some (world.createRigidBody transform) }

/-- `RigidbodyComponent::RigidbodyComponent(Actor*, Transform, PhysicsWorld*, int)`
(RigidbodyComponent.cpp lines 26-30): `_rigidBody = _world->createRigidBody(transform)`. -/
def RigidbodyComponent.mkWorldOrder (updateOrder : Int) (transform : RPTransform)
    (world : PhysicsWorld) : RigidbodyComponent :=
  { updateOrder := updateOrder, rigidBody := some (world.createRigidBody transform) }

/-- `RigidbodyComponent::update`, the src/Projects/TownRunner version
(RigidbodyComponent.cpp lines 38-52), acting on a non-null rigid body:
reads the rigid body's transform position and stores it into the owner actor
via `owner.setPosition`; the rigid body is not written.  The remaining lines
only format and draw a log message and do not affect actor or body. -/
def updateTownRunner (owner : Actor) (rb : RigidBody) : Actor × RigidBody :=
  let rbPosV3 := rb.transform.position
  let rbPosF3 : Float3 := ⟨rbPosV3.x, rbPosV3.y, rbPosV3.z⟩
  ({ owner with position := rbPosF3 }, rb)

/-- `RigidbodyComponent::update`, the src/unnamed/part_004 version
(lines 26-43), acting on a non-null rigid body: copies the owner's position
into the transform's position (`rbTrans.setPosition`) and writes the transform
back with `_rigidBody->setTransform(rbTrans)`; the read of the body position
into `rbPosV3` is unused (the `owner.setPosition` line is commented out), so
the owner is not written. -/
def updatePart004 (owner : Actor) (rb : RigidBody) : Actor × RigidBody :=
  let rbTrans := rb.transform
  let pos := owner.position
  let rbTrans2 : RPTransform := { rbTrans with position := ⟨pos.x, pos.y, pos.z⟩ }
  (owner, { rb with transform := rbTrans2 })

/-- The dereference `_rigidBody->getTransform()` at the top of
`RigidbodyComponent::update` performed on the component's nullable handle:
on a null handle the update faults (`none`); otherwise it performs the
TownRunner update on the owner and the body. -/
def RigidbodyComponent.updateC (c : RigidbodyComponent) (owner : Actor) :
    Option (Actor × RigidBody) :=
  match c.rigidBody with
  | none => none
  | some rb => some (updateTownRunner owner rb)

/-- A scene entry: one `Actor*` held by `TestScene::actors`.  The `id` models
the pointer identity, `actor` the pointed-to Actor, and `rb` the rigid body of
an attached `RigidbodyComponent` (`none` when the actor has no such
component). -/
structure SceneActor where
  id : Nat
  actor : Actor
  rb : Option RigidBody
  deriving DecidableEq

/-- Modelled from the spec: Actor.h/Actor.cpp are not among the provided
sources; per the specification `Actor::Update` invokes `update` once on each
owned component.  The component updates present in the sources are
`RigidbodyComponent::update` (part_004 version, paired with this TestScene),
which synchronizes the rigid-body transform with the actor position, and
`CollisionComponent::update`, which has an empty body; neither touches the
actor's state or identity. -/
def SceneActor.Update (a : SceneActor) : SceneActor :=
  match a.rb with
  | none => a
  | some rb =>
    let p := updatePart004 a.actor rb
    { a with actor := p.1, rb := some p.2 }

/-- `actors.back()->setState(Actor::ActorState::Dead)`
(src/unnamed/part_003 lines 207-208): mutate the state of the last actor of
the list to Dead (on an empty vector `back()` is undefined behaviour in C++;
the model leaves the empty list unchanged). -/
def setLastDead : List SceneActor → List SceneActor
  | [] => []
  | [a] => [{ a with actor := { a.actor with state := ActorState.Dead } }]
  | a :: b :: rest => a :: setLastDead (b :: rest)

/-- Observable events of a TestScene frame, used to state ordering claims:
the physics-world update, the camera update, one actor update per actor, and
the render calls. -/
inductive Ev where
  | physics : Ev
  | cameraUpd : Ev
  | actorUpd : Nat → Ev
  | renderEnv : Ev
  | renderActor : Nat → Ev
  deriving DecidableEq

/-- The TestScene state: the `std::vector<Actor*> actors`, the physics-world
wrapper and the camera (kept as an update counter). -/
structure Scene where
  actors : List SceneActor
  physics : PhysicsWorld
  camera : Nat
  deriving DecidableEq

/-- `TestScene::Update` (src/unnamed/part_003 lines 191-222) together with its
event trace.  In source order: `SampleBase::Update` (external bookkeeping),
`_reactPhysic->Update()`, `m_Camera.Update(...)`, the actor loop invoking
`actor->Update` on every element of `actors`, the MoveBackward input branch
setting the last actor's state to Dead, and the dead-actor pass, which
collects every Dead actor into `deadActors` and then iterates over them with
an empty loop body. -/
def TestScene.UpdateT (s : Scene) (moveBackwardDown : Bool) : Scene × List Ev :=
  let s1 : Scene := { s with physics := ⟨s.physics.steps + 1⟩ }
  let s2 : Scene := { s1 with camera := s1.camera + 1 }
  let actorEvents := s2.actors.map (fun a => Ev.actorUpd a.id)
  let updated := s2.actors.map SceneActor.Update
  let afterInput := if moveBackwardDown then setLastDead updated else updated
  let deadActors := afterInput.filter (fun a => a.actor.state == ActorState.Dead)
  let finalActors := deadActors.foldl (fun acc _deadActor => acc) afterInput
  ({ s2 with actors := finalActors }, Ev.physics :: Ev.cameraUpd :: actorEvents)

/-- The state transformer of `TestScene::Update`. -/
def TestScene.Update (s : Scene) (moveBackwardDown : Bool) : Scene :=
  (TestScene.UpdateT s moveBackwardDown).1

/-- The event trace of one `TestScene::Update` frame. -/
def TestScene.updateTrace (s : Scene) (moveBackwardDown : Bool) : List Ev :=
  (TestScene.UpdateT s moveBackwardDown).2

/-- Repeated `TestScene::Update` calls, one per frame input. -/
def TestScene.run (s : Scene) (inputs : List Bool) : Scene :=
  inputs.foldl TestScene.Update s

/-- The event trace of `TestScene::Render` (src/unnamed/part_003 lines
168-189): after the framebuffer setup (external engine calls), render the
environment map, then loop over `actors` rendering exactly those whose state
is Active. -/
def TestScene.renderTrace (s : Scene) : List Ev :=
  Ev.renderEnv ::
    s.actors.foldr
      (fun a acc =>
        (if a.actor.state == ActorState.Active then [Ev.renderActor a.id] else []) ++ acc)
      []

/-- `TestScene::removeActor` (src/unnamed/part_003 lines 230-238) as a pure
list operation: `std::find` locates the first occurrence of the element; if
found, `std::iter_swap(iter, end(actors) - 1)` swaps it with the last element
(writing the last element into the found slot and the found element into the
last slot) and `pop_back` drops the last slot; an absent element leaves the
list unchanged.  The `none` branch of the last-element lookup is unreachable,
because a list with a found element is nonempty. -/
def removeActor {α : Type} [DecidableEq α] (l : List α) (a : α) : List α :=
  if a ∈ l then
    match l.getLast? with
    | none => l
    | some last => ((l.set (l.indexOf a) last).set (l.length - 1) a).dropLast
  else l

/-- The heap view used for `removeActor`: the allocated Actor objects keyed by
pointer identity together with the `actors` vector of pointers. -/
structure ActorHeap where
  store : List (Nat × Actor)
  actors : List Nat
  deriving DecidableEq

/-- `TestScene::removeActor` on the heap view: only the `actors` vector is
touched; the function body contains no `delete`, so the pointed-to Actor
objects all stay allocated. -/
def TestScene.removeActorH (s : ActorHeap) (aid : Nat) : ActorHeap :=
  { s with actors := removeActor s.actors aid }

/-- The lambda `ClampCoordinate` inside `Light::UpdateLights`
(src/unnamed/part_001 lines 338-350): a coordinate below `Min` is reflected to
`Coord + (Min - Coord) * 2` and the direction negated (`Dir *= -1`); a
coordinate above `Max` is reflected to `Coord - (Coord - Max) * 2` and the
direction negated; otherwise both are unchanged. -/
def ClampCoordinate (mn mx coord dir : ℚ) : ℚ × ℚ :=
  if coord < mn then (coord + (mn - coord) * 2, dir * (-1))
  else if coord > mx then (coord - (coord - mx) * 2, dir * (-1))
  else (coord, dir)

/-- The `LightAttribs` array-of-structs element: location, size, color. -/
structure LightAttribs where
  location : Float3
  size : ℚ
  color : Float3
  deriving DecidableEq

/-- The per-light body of `Light::UpdateLights` (src/unnamed/part_001 lines
329-355): `Light.Location += Dir * fElapsedTime`, then each coordinate is
clamped into `[VolumeMin, VolumeMax] = [-GridDim, +GridDim]` by
`ClampCoordinate`.  Modelled from the spec: Light.h with the `GridDim`
constant is not among the provided sources, so the bounding-volume half-side
is the parameter `gridDim`. -/
def UpdateLight (gridDim fElapsedTime : ℚ) (li : LightAttribs) (dir : Float3) :
    LightAttribs × Float3 :=
  let mn := -gridDim
  let mx := gridDim
  let loc : Float3 :=
    ⟨li.location.x + dir.x * fElapsedTime,
     li.location.y + dir.y * fElapsedTime,
     li.location.z + dir.z * fElapsedTime⟩
  let px := ClampCoordinate mn mx loc.x dir.x
  let py := ClampCoordinate mn mx loc.y dir.y
  let pz := ClampCoordinate mn mx loc.z dir.z
  ({ li with location := ⟨px.1, py.1, pz.1⟩ }, ⟨px.2, py.2, pz.2⟩)

/-- `Light::UpdateLights` over the whole lights array: every light is moved
and clamped with its move direction (`m_Lights` zipped with
`m_LightMoveDirs`). -/
def UpdateLights (gridDim fElapsedTime : ℚ) (lights : List (LightAttribs × Float3)) :
    List (LightAttribs × Float3) :=
  lights.map (fun p => UpdateLight gridDim fElapsedTime p.1 p.2)

/-- Membership of a location in the bounding volume `[-gridDim, +gridDim]^3`. -/
def inVolume (gridDim : ℚ) (loc : Float3) : Prop :=
  -gridDim ≤ loc.x ∧ loc.x ≤ gridDim ∧
  -gridDim ≤ loc.y ∧ loc.y ≤ gridDim ∧
  -gridDim ≤ loc.z ∧ loc.z ≤ gridDim

instance (gridDim : ℚ) (loc : Float3) : Decidable (inVolume gridDim loc) := by
  unfold inVolume
  exact inferInstance

/-- Recognizer for actor-update events in a frame trace. -/
def isActorUpd : Ev → Bool
  | Ev.actorUpd _ => true
  | _ => false

/-- The record of actor-update events of the actor loop passes the
actor-update filter unchanged. -/
lemma filter_actorUpd_map (l : List SceneActor) :
    (l.map (fun a => Ev.actorUpd a.id)).filter isActorUpd
      = l.map (fun a => Ev.actorUpd a.id) := by
  induction l with
  | nil => rfl
  | cons a t ih => simp [isActorUpd, List.filter_cons, ih]

/-- The owner actor of the C2 counterexample sits at position (1,0,0). -/
def cexActor : Actor := ⟨⟨1, 0, 0⟩, ActorState.Active⟩

/-- The rigid body of the C2 counterexample sits at the origin with the
identity orientation. -/
def cexBody : RigidBody := ⟨⟨⟨0, 0, 0⟩, ⟨0, 0, 0, 1⟩⟩⟩

/-- C2 counterexample: the two implementations of `RigidbodyComponent::update`
disagree on an owner at (1,0,0) with a rigid body at the origin — the
TownRunner version moves the actor to the body's position while the part_004
version moves the body to the actor's position, so the resulting
actor/body pairs differ. -/
theorem updates_not_equivalent :
    updateTownRunner cexActor cexBody ≠ updatePart004 cexActor cexBody := by
  simp [updateTownRunner, updatePart004, cexActor, cexBody]

/-- C2 amended: the two implementations of `RigidbodyComponent::update`
synchronize in opposite directions — TownRunner copies the rigid-body
transform position into the actor, part_004 copies the actor position into
the rigid-body transform — and they produce the same result exactly when the
owner's position already equals the rigid body's transform position; in that
synchronized case both updates act as the identity on the actor/body pair. -/
theorem updates_agree_when_synced (a : Actor) (rb : RigidBody) :
    (updateTownRunner a rb = updatePart004 a rb ↔
      a.position = ⟨rb.transform.position.x, rb.transform.position.y,
        rb.transform.position.z⟩) ∧
    (a.position = ⟨rb.transform.position.x, rb.transform.position.y,
        rb.transform.position.z⟩ →
      updateTownRunner a rb = (a, rb) ∧ updatePart004 a rb = (a, rb)) := by
  cases a with
  | mk pos st =>
    cases pos with
    | mk px py pz =>
      cases rb with
      | mk t =>
        cases t with
        | mk p q =>
          cases p with
          | mk rx ry rz =>
            simp only [updateTownRunner, updatePart004, Prod.mk.injEq,
              Actor.mk.injEq, Float3.mk.injEq, RigidBody.mk.injEq,
              RPTransform.mk.injEq, ReactVector3.mk.injEq]
            constructor
            · constructor
              · rintro ⟨⟨⟨hx, hy, hz⟩, -⟩, -⟩
                exact ⟨hx.symm, hy.symm, hz.symm⟩
              · rintro ⟨hx, hy, hz⟩
                subst hx; subst hy; subst hz
                simp
            · rintro ⟨hx, hy, hz⟩
              subst hx; subst hy; subst hz
              simp

/-- Witness for the C2 amended theorem: on a synchronized concrete pair both
updates return the pair unchanged. -/
theorem updates_agree_when_synced_witness :
    updateTownRunner ⟨⟨2, 3, 4⟩, ActorState.Active⟩ ⟨⟨⟨2, 3, 4⟩, ⟨0, 0, 0, 1⟩⟩⟩
        = (⟨⟨2, 3, 4⟩, ActorState.Active⟩, ⟨⟨⟨2, 3, 4⟩, ⟨0, 0, 0, 1⟩⟩⟩) ∧
    updatePart004 ⟨⟨2, 3, 4⟩, ActorState.Active⟩ ⟨⟨⟨2, 3, 4⟩, ⟨0, 0, 0, 1⟩⟩⟩
        = (⟨⟨2, 3, 4⟩, ActorState.Active⟩, ⟨⟨⟨2, 3, 4⟩, ⟨0, 0, 0, 1⟩⟩⟩) :=
  (updates_agree_when_synced ⟨⟨2, 3, 4⟩, ActorState.Active⟩
    ⟨⟨⟨2, 3, 4⟩, ⟨0, 0, 0, 1⟩⟩⟩).2 rfl

/-- C7: the part_004 version of `RigidbodyComponent::update` copies the owner
actor's position into the rigid body transform's position, leaves the rigid
body's orientation unchanged, and leaves the owner actor (its position and
state) unchanged. -/
theorem part004_update_effect (a : Actor) (rb : RigidBody) :
    (updatePart004 a rb).1 = a ∧
    (updatePart004 a rb).2.transform.position
      = ⟨a.position.x, a.position.y, a.position.z⟩ ∧
    (updatePart004 a rb).2.transform.orientation = rb.transform.orientation := by
  refine ⟨rfl, rfl, rfl⟩

/-- C8: the two `RigidbodyComponent` constructors that take no PhysicsWorld
leave the `_rigidBody` handle null; `update` performs its null dereference
exactly when the handle is null; and the two constructors that take a
PhysicsWorld set `_rigidBody` to the rigid body created by the world, which
is non-null — so the null dereference is unreachable precisely for
world-constructed components. -/
theorem update_null_deref_iff_no_world :
    (∀ d : Int, (RigidbodyComponent.mkOwner d).rigidBody = none) ∧
    (∀ u : Int, (RigidbodyComponent.mkOwnerOrder u).rigidBody = none) ∧
    (∀ (c : RigidbodyComponent) (a : Actor), c.updateC a = none ↔ c.rigidBody = none) ∧
    (∀ (d : Int) (t : RPTransform) (w : PhysicsWorld),
      (RigidbodyComponent.mkWorld d t w).rigidBody = some (w.createRigidBody t)) ∧
    (∀ (u : Int) (t : RPTransform) (w : PhysicsWorld),
      (RigidbodyComponent.mkWorldOrder u t w).rigidBody = some (w.createRigidBody t)) := by
  refine ⟨fun _ => rfl, fun _ => rfl, ?_, fun _ _ _ => rfl, fun _ _ _ => rfl⟩
  intro c a
  cases h : c.rigidBody <;> simp [RigidbodyComponent.updateC, h]

/-- C3: every `TestScene::Update` frame performs the physics-world update
before any actor update — the trace splits as `pre ++ physics :: post` with no
actor-update event in `pre` — and `post` contains the update of every actor of
the actors list exactly once, in list order. -/
theorem update_physics_then_actors (s : Scene) (b : Bool) :
    ∃ pre post, TestScene.updateTrace s b = pre ++ Ev.physics :: post ∧
      (∀ e ∈ pre, isActorUpd e = false) ∧
      post.filter isActorUpd = s.actors.map (fun a => Ev.actorUpd a.id) := by
  refine ⟨[], Ev.cameraUpd :: s.actors.map (fun a => Ev.actorUpd a.id), ?_, by simp, ?_⟩
  · rfl
  · simp [List.filter_cons, isActorUpd, filter_actorUpd_map]

/-- The one-actor scene on which the dead-actor removal bug of
`TestScene::Update` shows: a single Active actor with no rigid body. -/
def bugScene : Scene := ⟨[⟨0, ⟨⟨0, 0, 0⟩, ActorState.Active⟩, none⟩], ⟨0⟩, 0⟩

/-- C1: on a one-actor scene with the MoveBackward key down,
`TestScene::Update` sets the last actor's state to Dead, its dead-actor pass
collects that actor into `deadActors`, but the loop over `deadActors` has an
empty body, so after Update the actors list still contains an actor whose
state is Dead — against the claim (and the code's own `Delete dead actors`
comment). -/
theorem dead_actor_not_removed :
    (TestScene.Update bugScene true).actors.map (fun a => a.actor.state)
      = [ActorState.Dead] := by
  simp [TestScene.Update, TestScene.UpdateT, bugScene, SceneActor.Update, setLastDead]

/-- Membership of a renderActor event in the render loop of
`TestScene::Render`: the event for id `i` occurs exactly when some listed
actor with that id is Active. -/
lemma mem_renderFold (l : List SceneActor) (i : Nat) :
    (Ev.renderActor i ∈ l.foldr (fun a acc =>
      (if a.actor.state == ActorState.Active then [Ev.renderActor a.id] else []) ++ acc) [])
    ↔ ∃ a, a ∈ l ∧ a.id = i ∧ a.actor.state = ActorState.Active := by
  induction l with
  | nil => simp
  | cons a t ih =>
    rw [List.foldr_cons]
    by_cases h : a.actor.state = ActorState.Active
    · rw [if_pos (by simp [h]), List.cons_append, List.nil_append, List.mem_cons]
      constructor
      · rintro (he | hm)
        · injection he with hid
          exact ⟨a, List.mem_cons_self a t, hid.symm, h⟩
        · obtain ⟨x, hx, hxi, hxa⟩ := ih.1 hm
          exact ⟨x, List.mem_cons_of_mem a hx, hxi, hxa⟩
      · rintro ⟨x, hx, hxi, hxa⟩
        rcases List.mem_cons.1 hx with rfl | hxt
        · exact Or.inl (by rw [hxi])
        · exact Or.inr (ih.2 ⟨x, hxt, hxi, hxa⟩)
    · rw [if_neg (by simp [h]), List.nil_append, ih]
      constructor
      · rintro ⟨x, hx, hxi, hxa⟩
        exact ⟨x, List.mem_cons_of_mem a hx, hxi, hxa⟩
      · rintro ⟨x, hx, hxi, hxa⟩
        rcases List.mem_cons.1 hx with rfl | hxt
        · exact absurd hxa h
        · exact ⟨x, hxt, hxi, hxa⟩

/-- C9: `TestScene::Render` renders exactly the Active actors — a renderActor
event for id `i` occurs in the render trace iff some actor of the list with
id `i` has state Active — whereas `TestScene::Update` records one update
event for every actor of the list, whatever its state. -/
theorem render_active_update_all (s : Scene) (b : Bool) :
    (∀ i : Nat, (Ev.renderActor i ∈ TestScene.renderTrace s ↔
      ∃ a, a ∈ s.actors ∧ a.id = i ∧ a.actor.state = ActorState.Active)) ∧
    (TestScene.updateTrace s b).filter isActorUpd
      = s.actors.map (fun a => Ev.actorUpd a.id) := by
  constructor
  · intro i
    have h := mem_renderFold s.actors i
    simpa [TestScene.renderTrace] using h
  · simp [TestScene.updateTrace, TestScene.UpdateT, List.filter_cons, isActorUpd,
      filter_actorUpd_map]

/-- The per-frame relation on actor-list entries used for C6: the entry keeps
its pointer identity, and a Dead state never reverts to Active. -/
def DeadStays (a b : SceneActor) : Prop :=
  a.id = b.id ∧ (a.actor.state = ActorState.Dead → b.actor.state = ActorState.Dead)

/-- `Actor::Update` (the component updates) touches neither the identity nor
the state of a scene actor. -/
lemma sceneActorUpdate_id_state (a : SceneActor) :
    (SceneActor.Update a).id = a.id ∧ (SceneActor.Update a).actor.state = a.actor.state := by
  cases h : a.rb <;> simp [SceneActor.Update, h, updatePart004]

/-- The actor loop of a frame relates old and new lists entry by entry. -/
lemma forall2_deadStays_map (l : List SceneActor) :
    List.Forall₂ DeadStays l (l.map SceneActor.Update) := by
  induction l with
  | nil => simp
  | cons a t ih =>
    refine List.Forall₂.cons ?_ ih
    have h := sceneActorUpdate_id_state a
    exact ⟨h.1.symm, fun hd => by rw [h.2]; exact hd⟩

/-- Setting the last actor's state to Dead relates old and new lists entry by
entry: identities are kept and Dead entries stay Dead. -/
lemma forall2_deadStays_setLastDead :
    ∀ l : List SceneActor, List.Forall₂ DeadStays l (setLastDead l)
  | [] => List.Forall₂.nil
  | [_] => List.Forall₂.cons ⟨rfl, fun _ => rfl⟩ List.Forall₂.nil
  | _ :: b :: rest =>
    List.Forall₂.cons ⟨rfl, id⟩ (forall2_deadStays_setLastDead (b :: rest))

/-- `DeadStays` composes. -/
lemma deadStays_trans {a b c : SceneActor} :
    DeadStays a b → DeadStays b c → DeadStays a c :=
  fun h1 h2 => ⟨h1.1.trans h2.1, fun hd => h2.2 (h1.2 hd)⟩

/-- Entrywise `DeadStays` composes along consecutive frames. -/
lemma forall2_deadStays_trans {l m n : List SceneActor}
    (h1 : List.Forall₂ DeadStays l m) (h2 : List.Forall₂ DeadStays m n) :
    List.Forall₂ DeadStays l n := by
  induction h1 generalizing n with
  | nil => cases h2; exact List.Forall₂.nil
  | cons hab _ ih =>
    cases h2 with
    | cons hbc h2tail => exact List.Forall₂.cons (deadStays_trans hab hbc) (ih h2tail)

/-- A fold whose body ignores the element — the empty `for` loop over
`deadActors` — returns its initial value. -/
lemma foldl_keep {β : Type} (l : List β) (init : List SceneActor) :
    l.foldl (fun acc _deadActor => acc) init = init := by
  induction l generalizing init with
  | nil => rfl
  | cons x xs ih => exact ih init

/-- The actors list produced by one `TestScene::Update` frame: every actor
updated, then — with the MoveBackward key down — the last actor's state set
to Dead; the dead-actor pass removes nothing. -/
lemma update_actors_eq (s : Scene) (b : Bool) :
    (TestScene.Update s b).actors =
      (if b then setLastDead (s.actors.map SceneActor.Update)
       else s.actors.map SceneActor.Update) := by
  simp only [TestScene.Update, TestScene.UpdateT, foldl_keep]

/-- C6: the TestScene step relation changes the actors list only pointwise —
each frame, and hence each run of frames, pairs the old and new lists entry
by entry with identities kept — and a Dead entry stays Dead; with the two
states Active/Dead this means an actor's state moves from Active to Dead at
most once and never from Dead back to Active while it is in the list. -/
theorem state_dead_monotone :
    (∀ (s : Scene) (b : Bool),
      List.Forall₂ DeadStays s.actors (TestScene.Update s b).actors) ∧
    (∀ (s : Scene) (inputs : List Bool),
      List.Forall₂ DeadStays s.actors (TestScene.run s inputs).actors) := by
  have step : ∀ (s : Scene) (b : Bool),
      List.Forall₂ DeadStays s.actors (TestScene.Update s b).actors := by
    intro s b
    rw [update_actors_eq]
    cases b
    · simpa using forall2_deadStays_map s.actors
    · simpa using forall2_deadStays_trans (forall2_deadStays_map s.actors)
        (forall2_deadStays_setLastDead (s.actors.map SceneActor.Update))
  refine ⟨step, ?_⟩
  intro s inputs
  induction inputs generalizing s with
  | nil => exact List.forall₂_same.2 (fun x _ => ⟨rfl, id⟩)
  | cons b bs ih => exact forall2_deadStays_trans (step s b) (ih (TestScene.Update s b))

/-- Writing into the last slot of a list and then dropping the last slot is
the same as just dropping the last slot — the write `iter_swap` performs into
the slot that `pop_back` discards is invisible in the result. -/
lemma dropLast_set_last {α : Type} : ∀ (m : List α) (x : α),
    (m.set (m.length - 1) x).dropLast = m.dropLast
  | [], _ => rfl
  | [_], _ => rfl
  | a :: b :: t, x => by
    have ih := dropLast_set_last (b :: t) x
    have hlen : (a :: b :: t).length - 1 = ((b :: t).length - 1) + 1 := by
      simp
    rw [hlen, List.set_cons_succ]
    have hne : (b :: t).set ((b :: t).length - 1) x ≠ [] := by
      intro hc
      have hc2 := congrArg List.length hc
      simp at hc2
    obtain ⟨c, l2, hcl⟩ := List.exists_cons_of_ne_nil hne
    rw [hcl, List.dropLast_cons₂, ← hcl, ih, List.dropLast_cons₂]

/-- `std::find` stops at the first occurrence: the element does not occur
before its index. -/
lemma not_mem_take_indexOf {α : Type} [DecidableEq α] :
    ∀ (l : List α) (a : α), a ∉ l.take (List.indexOf a l)
  | [], a => by simp
  | b :: t, a => by
    by_cases hab : b = a
    · subst hab
      rw [List.indexOf_cons_self]
      simp
    · rw [List.indexOf_cons_ne t hab, Nat.succ_eq_add_one, List.take_succ_cons]
      intro hmem
      rcases List.mem_cons.1 hmem with heq | hmem2
      · exact hab heq.symm
      · exact not_mem_take_indexOf t a hmem2

/-- `removeActor` leaves a list without the element unchanged
(`std::find` reaches `end` and nothing is swapped or popped). -/
lemma removeActor_not_mem {α : Type} [DecidableEq α] {l : List α} {a : α}
    (ha : a ∉ l) : removeActor l a = l := by
  unfold removeActor
  rw [if_neg ha]

/-- The swap-and-pop of `removeActor` on a present element produces a
permutation of the list with one occurrence of the element erased. -/
lemma removeActor_perm_erase {α : Type} [DecidableEq α] (l : List α) (a : α)
    (h : a ∈ l) : (removeActor l a).Perm (l.erase a) := by
  have hne : l ≠ [] := List.ne_nil_of_mem h
  have hi : List.indexOf a l < l.length := List.indexOf_lt_length.2 h
  obtain ⟨last, hlast⟩ : ∃ last, l.getLast? = some last := by
    cases hgl : l.getLast? with
    | none => exact absurd (List.getLast?_eq_none_iff.1 hgl) hne
    | some y => exact ⟨y, rfl⟩
  have hdecomp : l.take (List.indexOf a l) ++ a :: l.drop (List.indexOf a l + 1) = l := by
    conv_rhs => rw [← List.take_append_drop (List.indexOf a l) l]
    rw [List.drop_eq_getElem_cons hi, List.getElem_indexOf hi]
  have herase : l.erase a
      = l.take (List.indexOf a l) ++ l.drop (List.indexOf a l + 1) := by
    conv_lhs => rw [← hdecomp]
    rw [List.erase_append_right _ (not_mem_take_indexOf l a), List.erase_cons_head]
  unfold removeActor
  rw [if_pos h, hlast]
  simp only []
  have hm : l.length = (l.set (List.indexOf a l) last).length := by simp
  rw [hm, dropLast_set_last, List.set_eq_take_cons_drop _ hi, herase]
  rcases hD : l.drop (List.indexOf a l + 1) with _ | ⟨d0, Dt⟩
  · rw [List.dropLast_concat, List.append_nil]
  · rw [← hD]
    have hDne : l.drop (List.indexOf a l + 1) ≠ [] := by rw [hD]; exact List.cons_ne_nil d0 Dt
    have hDlast : (l.drop (List.indexOf a l + 1)).getLast? = some last := by
      rw [← hdecomp, List.getLast?_append_cons] at hlast
      rw [hD] at hlast ⊢
      rwa [List.getLast?_cons_cons] at hlast
    rw [List.dropLast_append_cons]
    have hsplit : (l.drop (List.indexOf a l + 1)).dropLast ++ [last]
        = l.drop (List.indexOf a l + 1) :=
      List.dropLast_append_getLast? last (Option.mem_def.2 hDlast)
    have hcons : (last :: l.drop (List.indexOf a l + 1)).dropLast
        = last :: (l.drop (List.indexOf a l + 1)).dropLast := by
      rw [hD, List.dropLast_cons₂]
    rw [hcons]
    refine List.Perm.append_left _ ?_
    conv_rhs => rw [← hsplit]
    exact (List.perm_append_singleton last _).symm

/-- C4: for an actor `aid` present in the `actors` vector,
`TestScene::removeActor(aid)` removes exactly one occurrence of `aid` — the
vector's length drops by one and the remaining entries are the original
multiset minus one occurrence of `aid`, order possibly changed — and the
removed Actor object itself is not destroyed or freed: the heap store is
untouched, as the source contains no delete. -/
theorem removeActor_removes_one (s : ActorHeap) (aid : Nat) (h : aid ∈ s.actors) :
    (TestScene.removeActorH s aid).actors.length + 1 = s.actors.length ∧
    ((TestScene.removeActorH s aid).actors : Multiset Nat)
      = (s.actors : Multiset Nat).erase aid ∧
    (TestScene.removeActorH s aid).store = s.store := by
  have hperm := removeActor_perm_erase s.actors aid h
  refine ⟨?_, ?_, rfl⟩
  · show (removeActor s.actors aid).length + 1 = s.actors.length
    rw [hperm.length_eq, List.length_erase_of_mem h]
    have hpos : 0 < s.actors.length := List.length_pos_of_mem h
    omega
  · show ((removeActor s.actors aid : List Nat) : Multiset Nat)
      = (s.actors : Multiset Nat).erase aid
    rw [Multiset.coe_erase]
    exact Multiset.coe_eq_coe.2 hperm

/-- Witness heap for C4: actors 1 and 2 allocated and both in the vector. -/
def cexHeap : ActorHeap :=
  ⟨[(1, ⟨⟨0, 0, 0⟩, ActorState.Active⟩), (2, ⟨⟨0, 0, 0⟩, ActorState.Active⟩)], [1, 2]⟩

/-- Witness for C4 on the concrete heap `cexHeap`, removing actor 1. -/
theorem removeActor_removes_one_witness :
    (1 ∈ cexHeap.actors) ∧
    ((TestScene.removeActorH cexHeap 1).actors.length + 1 = cexHeap.actors.length ∧
     ((TestScene.removeActorH cexHeap 1).actors : Multiset Nat)
       = (cexHeap.actors : Multiset Nat).erase 1 ∧
     (TestScene.removeActorH cexHeap 1).store = cexHeap.store) :=
  ⟨by decide, removeActor_removes_one cexHeap 1 (by decide)⟩

/-- C10: `TestScene::removeActor` on an actor absent from the vector leaves
the vector unchanged (`std::find` reaches `end(actors)` and the swap-and-pop
branch is skipped); consequently, when an actor occurs at most once,
`removeActor` is idempotent. -/
theorem removeActor_absent (l : List Nat) (a : Nat) :
    (a ∉ l → removeActor l a = l) ∧
    (l.count a ≤ 1 → removeActor (removeActor l a) a = removeActor l a) := by
  refine ⟨fun ha => removeActor_not_mem ha, fun hc => ?_⟩
  by_cases h : a ∈ l
  · have hperm := removeActor_perm_erase l a h
    have hone : l.count a = 1 := by
      have hpos : 0 < l.count a := List.count_pos_iff.2 h
      omega
    have hcount : (removeActor l a).count a = 0 := by
      rw [hperm.count_eq a, List.count_erase_self, hone]
    exact removeActor_not_mem (List.count_eq_zero.1 hcount)
  · rw [removeActor_not_mem h, removeActor_not_mem h]

/-- Witness for C10 at the concrete vector `[1, 2]` and absent actor 5. -/
theorem removeActor_absent_witness :
    ((5 : Nat) ∉ [1, 2] ∧ removeActor [1, 2] 5 = [1, 2]) ∧
    (List.count 5 [1, 2] ≤ 1 ∧
      removeActor (removeActor [1, 2] 5) 5 = removeActor [1, 2] 5) :=
  ⟨⟨by decide, (removeActor_absent [1, 2] 5).1 (by decide)⟩,
   ⟨by decide, (removeActor_absent [1, 2] 5).2 (by decide)⟩⟩

/-- A coordinate whose overshoot past a boundary is at most the volume side
length `mx - mn` is reflected back into `[mn, mx]` by `ClampCoordinate`. -/
lemma clampCoordinate_mem (mn mx c d : ℚ)
    (h2 : 2 * mn - mx ≤ c) (h3 : c ≤ 2 * mx - mn) :
    mn ≤ (ClampCoordinate mn mx c d).1 ∧ (ClampCoordinate mn mx c d).1 ≤ mx := by
  unfold ClampCoordinate
  split_ifs with hlt hgt <;> dsimp only <;> constructor <;> linarith

/-- A coordinate crossing either boundary has its direction negated by
`ClampCoordinate`. -/
lemma clampCoordinate_dir_neg (mn mx c d : ℚ) (h : c < mn ∨ mx < c) :
    (ClampCoordinate mn mx c d).2 = -d := by
  unfold ClampCoordinate
  rcases h with h | h
  · rw [if_pos h]
    exact mul_neg_one d
  · by_cases hlt : c < mn
    · rw [if_pos hlt]
      exact mul_neg_one d
    · rw [if_neg hlt, if_pos h]
      exact mul_neg_one d

/-- One light whose location is in the volume and whose per-axis displacement
is at most the volume side length stays in the volume after the move and
reflection of `Light::UpdateLights`. -/
lemma updateLight_in_volume (gridDim dt : ℚ) (li : LightAttribs) (dir : Float3)
    (hloc : inVolume gridDim li.location)
    (hx : |dir.x * dt| ≤ 2 * gridDim) (hy : |dir.y * dt| ≤ 2 * gridDim)
    (hz : |dir.z * dt| ≤ 2 * gridDim) :
    inVolume gridDim (UpdateLight gridDim dt li dir).1.location := by
  obtain ⟨h1, h2, h3, h4, h5, h6⟩ := hloc
  obtain ⟨hx1, hx2⟩ := abs_le.1 hx
  obtain ⟨hy1, hy2⟩ := abs_le.1 hy
  obtain ⟨hz1, hz2⟩ := abs_le.1 hz
  unfold UpdateLight inVolume
  dsimp only
  refine ⟨(clampCoordinate_mem _ _ _ _ (by linarith) (by linarith)).1,
    (clampCoordinate_mem _ _ _ _ (by linarith) (by linarith)).2,
    (clampCoordinate_mem _ _ _ _ (by linarith) (by linarith)).1,
    (clampCoordinate_mem _ _ _ _ (by linarith) (by linarith)).2,
    (clampCoordinate_mem _ _ _ _ (by linarith) (by linarith)).1,
    (clampCoordinate_mem _ _ _ _ (by linarith) (by linarith)).2⟩

/-- C5 counterexample: with bounding half-side 1, elapsed time 1 and the
single light at the origin with move direction (-10, 0, 0), the move puts the
x-coordinate at -10 and the reflection rewrites it to
`-10 + (-1 - (-10)) * 2 = 8`, which lies outside the bounding volume
`[-1, 1]^3` — after `Light::UpdateLights` this light's Location is not within
the volume, so the claim fails for a large enough elapsed time. -/
theorem updateLights_can_leave_volume :
    UpdateLights 1 1 [(⟨⟨0, 0, 0⟩, 1, ⟨0, 0, 0⟩⟩, ⟨-10, 0, 0⟩)]
      = [UpdateLight 1 1 ⟨⟨0, 0, 0⟩, 1, ⟨0, 0, 0⟩⟩ ⟨-10, 0, 0⟩] ∧
    (UpdateLight 1 1 ⟨⟨0, 0, 0⟩, 1, ⟨0, 0, 0⟩⟩ ⟨-10, 0, 0⟩).1.location.x = 8 ∧
    ¬ inVolume 1 (UpdateLight 1 1 ⟨⟨0, 0, 0⟩, 1, ⟨0, 0, 0⟩⟩ ⟨-10, 0, 0⟩).1.location := by
  refine ⟨rfl, ?_, ?_⟩
  · norm_num [UpdateLight, ClampCoordinate]
  · norm_num [UpdateLight, ClampCoordinate, inVolume]

/-- C5 amended: after `Light::UpdateLights`, every light that started inside
the bounding volume `[-GridDim, +GridDim]^3` and whose per-axis displacement
`|Dir * fElapsedTime|` is at most the volume side length `2 * GridDim` lies
within the volume, a light crossing a boundary being reflected back inside
with the corresponding component of its move direction negated; without the
displacement bound the reflection can overshoot the opposite boundary. -/
theorem updateLights_in_volume (gridDim dt : ℚ) (lights : List (LightAttribs × Float3))
    (hpre : ∀ p ∈ lights, inVolume gridDim p.1.location ∧
      |p.2.x * dt| ≤ 2 * gridDim ∧ |p.2.y * dt| ≤ 2 * gridDim ∧
      |p.2.z * dt| ≤ 2 * gridDim) :
    (∀ q ∈ UpdateLights gridDim dt lights, inVolume gridDim q.1.location) ∧
    (∀ (mn mx c d : ℚ), (c < mn ∨ mx < c) → (ClampCoordinate mn mx c d).2 = -d) := by
  refine ⟨?_, clampCoordinate_dir_neg⟩
  intro q hq
  rw [UpdateLights, List.mem_map] at hq
  obtain ⟨p, hp, hq2⟩ := hq
  obtain ⟨hloc, hx, hy, hz⟩ := hpre p hp
  rw [← hq2]
  exact updateLight_in_volume gridDim dt p.1 p.2 hloc hx hy hz

/-- Witness for the C5 amended theorem: the slow light with direction
(1/2, 0, 0) starting at the origin of the unit volume stays inside. -/
theorem updateLights_in_volume_witness :
    inVolume 1 (UpdateLight 1 1 ⟨⟨0, 0, 0⟩, 1, ⟨0, 0, 0⟩⟩ ⟨1/2, 0, 0⟩).1.location :=
  (updateLights_in_volume 1 1 [(⟨⟨0, 0, 0⟩, 1, ⟨0, 0, 0⟩⟩, ⟨1/2, 0, 0⟩)]
    (by
      intro p hp
      rw [List.mem_singleton] at hp
      subst hp
      refine ⟨?_, ?_, ?_, ?_⟩ <;> norm_num [inVolume, abs_le])).1
    (UpdateLight 1 1 ⟨⟨0, 0, 0⟩, 1, ⟨0, 0, 0⟩⟩ ⟨1/2, 0, 0⟩)
    (by simp [UpdateLights])

end TownRunner
